import Mathlib

/-!
Shallow embedding of the AbilityConnect core: the treatment-plan generation
pipeline (`TreatmentPlanForm.tsx` / `VoiceRecorder.tsx` `handleSubmit`,
`services/openai.ts`), the progress analytics (`utils/progressData.ts`), the
child-linking operations (`ParentProfile.handleAddChild`,
`PatientList.handleAssignToMe`), and the weekly-goal schema normalization
(inline in `DailyTasks` / `TreatmentPlanView`).

Modelling conventions:
- JS `Date` values are modelled as integer day offsets (`ℤ`); every date the
  analytics code constructs is derived from "today" by whole-day `setDate`
  arithmetic, so all constructed timestamps share today's time of day and
  compare exactly like their day offsets.
- `Math.random()` is modelled as an explicit stream of rationals together with
  a position counter (`RandState`); each call reads the next stream element.
- `Math.round` is modelled as `jsRound q = ⌊q + 1/2⌋` (round half toward +∞),
  which is JS semantics on rationals.
- `async`/`await` with `try`/`catch` is modelled with `Except String`; a
  rejected promise is `Except.error`.  `Promise.all` rejects iff some element
  rejects.
- The Firestore collections are modelled as in-memory lists; `addDoc` appends,
  `updateDoc` maps over the list, equality filters become `List.filter`.
-/

namespace AbilityConnect

/-- JS `Math.round`: round half toward positive infinity. -/
def jsRound (q : ℚ) : ℤ := ⌊q + 1/2⌋

/-- A source of `Math.random()` draws: an infinite stream of rationals and the
index of the next draw.  Successive calls read successive positions. -/
structure RandState where
  stream : ℕ → ℚ
  pos : ℕ

/-- One `Math.random()` call: read the current draw, advance the position. -/
def RandState.next (rs : RandState) : ℚ × RandState :=
  (rs.stream rs.pos, ⟨rs.stream, rs.pos + 1⟩)

/-! ## Schema normalization of weekly goals

`weeklyGoals` entries are either legacy plain strings or `{goal, category}`
objects.  `DailyTasks.tsx` (lines 204–224) and `TreatmentPlanView.tsx`
(lines 252–272) adapt each entry with
`isNewFormat = typeof goal === 'object' && 'goal' in goal;
 goalText = isNewFormat ? goal.goal : goal;
 category = isNewFormat ? goal.category : null`.
An absent `category` field on an object is modelled as `Option.none`. -/

/-- A raw weekly-goal entry: legacy string or tagged `{goal, category}` object. -/
inductive RawGoal where
  | str (s : String)
  | obj (goal : String) (category : Option String)
deriving DecidableEq

/-- The per-entry adaptation performed inline by the rendering components:
a string becomes `{goal: s, category: null}`; an object is read back as-is. -/
def normalizeGoal : RawGoal → RawGoal
  | .str s => .obj s none
  | .obj g c => .obj g c

/-- Normalization of a whole `weeklyGoals` value, entry by entry in order. -/
def normalizeWeeklyGoals (gs : List RawGoal) : List RawGoal :=
  gs.map normalizeGoal

/-! ## Progress analytics (`utils/progressData.ts`) -/

/-- Feedback category of a session (`easy | struggled | needs_practice`). -/
inductive Feedback where
  | easy
  | struggled
  | needsPractice
deriving DecidableEq

/-- Child mood of a session (`happy | neutral | frustrated`). -/
inductive Mood where
  | happy
  | neutral
  | frustrated
deriving DecidableEq

/-- A session-feedback record as produced by `generateSampleProgressData` and
consumed by `generateWeeklySummary` and the dashboard.  Dates are integer day
offsets. -/
structure SessionRec where
  id : String
  childId : String
  taskId : String
  parentId : String
  completed : Bool
  feedback : Feedback
  childMood : Mood
  notes : String
  completedAt : ℤ
  createdAt : ℤ
deriving DecidableEq

/-- `completionChance` from `generateSampleProgressData` line 12:
`0.5 + (i / days) * 0.4` where `i` is the loop index (0 = today's record). -/
def completionChance (i days : ℕ) : ℚ :=
  1/2 + ((i : ℚ) / (days : ℚ)) * (2/5)

/-- The feedback choice of `generateSampleProgressData` lines 18–29, given the
day's `dayProgress = i / days` and the single `Math.random()` draw `rand`. -/
def pickFeedback (dayProgress rand : ℚ) : Feedback :=
  if dayProgress > 7/10 then
    if rand < 7/10 then .easy else if rand < 9/10 then .needsPractice else .struggled
  else if dayProgress > 2/5 then
    if rand < 2/5 then .easy else if rand < 7/10 then .needsPractice else .struggled
  else
    if rand < 1/5 then .easy else if rand < 3/5 then .needsPractice else .struggled

/-- The mood choice of `generateSampleProgressData` lines 32–39; it draws one
or two fresh `Math.random()` values depending on the feedback. -/
def pickMood (fb : Feedback) (rs : RandState) : Mood × RandState :=
  match fb with
  | .easy =>
    let (r, rs1) := rs.next
    (if r < 4/5 then .happy else .neutral, rs1)
  | .needsPractice =>
    let (r1, rs1) := rs.next
    if r1 < 1/2 then (.neutral, rs1)
    else
      let (r2, rs2) := rs1.next
      (if r2 < 7/10 then .happy else .frustrated, rs2)
  | .struggled =>
    let (r, rs1) := rs.next
    (if r < 3/5 then .frustrated else .neutral, rs1)

/-- One loop iteration of `generateSampleProgressData` (lines 6–53) at index
`i`: the record's date is `today - i`, the feedback draw comes first, then the
mood draw(s), then the completion draw. -/
def genDay (childId : String) (today : ℤ) (days i : ℕ) (rs : RandState) :
    SessionRec × RandState :=
  let date := today - (i : ℤ)
  let dayProgress : ℚ := (i : ℚ) / (days : ℚ)
  let rand := (rs.next).1
  let rs1 := (rs.next).2
  let feedback := pickFeedback dayProgress rand
  let mood := pickMood feedback rs1
  let childMood := mood.1
  let rs2 := mood.2
  let randC := (rs2.next).1
  let rs3 := (rs2.next).2
  ({ id := "session_" ++ childId ++ "_" ++ toString i
     childId := childId
     taskId := "task_" ++ toString (i % 7)
     parentId := "parent_id"
     completed := decide (randC < completionChance i days)
     feedback := feedback
     childMood := childMood
     notes := ""
     completedAt := date
     createdAt := date }, rs3)

/-- The generator loop: produce `cnt` records for indices `i, i+1, …`, pushed
in loop order (newest first, since index 0 is today). -/
def genCount (childId : String) (today : ℤ) (days : ℕ) :
    ℕ → ℕ → RandState → List SessionRec × RandState
  | 0, _, rs => ([], rs)
  | cnt + 1, i, rs =>
    let d := genDay childId today days i rs
    let rest := genCount childId today days cnt (i + 1) d.2
    (d.1 :: rest.1, rest.2)

/-- `generateSampleProgressData(childId, days)`: run the loop for
`i = 0 … days-1` and reverse, so the result is oldest first. -/
def generateSampleProgressData (childId : String) (today : ℤ) (days : ℕ)
    (rs : RandState) : List SessionRec :=
  (genCount childId today days days 0 rs).1.reverse

/-- A derived weekly-summary bucket (`generateWeeklySummary`). -/
structure WeekSummary where
  weekStart : ℤ
  weekEnd : ℤ
  tasksCompleted : ℕ
  totalTasks : ℕ
  completionRate : ℤ
  engagementRate : ℤ
deriving DecidableEq

/-- One iteration of `generateWeeklySummary` (lines 63–86) at `weekIndex`,
given the iteration's single `Math.random()` draw `r`:
`weekStart = today - weekIndex*7 - 7`, `weekEnd = weekStart + 6`, sessions are
bucketed by inclusive bounds on `completedAt`. -/
def mkWeek (today : ℤ) (sessions : List SessionRec) (r : ℚ) (weekIndex : ℕ) :
    WeekSummary :=
  let weekStart : ℤ := today - 7 * (weekIndex : ℤ) - 7
  let weekEnd : ℤ := weekStart + 6
  let weekSessions := sessions.filter
    (fun s => decide (weekStart ≤ s.completedAt ∧ s.completedAt ≤ weekEnd))
  let completed := (weekSessions.filter (fun s => s.completed)).length
  let total := weekSessions.length
  { weekStart := weekStart
    weekEnd := weekEnd
    tasksCompleted := completed
    totalTasks := total
    completionRate :=
      if total > 0 then jsRound (((completed : ℚ) / (total : ℚ)) * 100) else 0
    engagementRate := jsRound (r * 30 + 70) }

/-- `generateWeeklySummary(sessions)`: four buckets for `weekIndex = 0 … 3`
(each consuming one `Math.random()` draw for `engagementRate`), then reversed
so the result is oldest first. -/
def generateWeeklySummary (today : ℤ) (sessions : List SessionRec)
    (rs : RandState) : List WeekSummary :=
  ((List.range 4).map
    (fun k => mkWeek today sessions (rs.stream (rs.pos + k)) k)).reverse

/-- The overall completion rate computed by `ProgressDashboard` (lines
151–152): `sessions.length > 0 ? Math.round(completedCount/length*100) : 0`. -/
def dashboardCompletionRate (sessions : List SessionRec) : ℤ :=
  let completedCount := (sessions.filter (fun s => s.completed)).length
  if sessions.length > 0 then
    jsRound (((completedCount : ℚ) / (sessions.length : ℚ)) * 100)
  else 0

/-! ## Treatment-plan generation pipeline

`handleSubmit` in `VoiceRecorder.tsx` (lines 80–162) and
`TreatmentPlanForm.tsx` (lines 37–120): upload voice → transcribe → summarize
→ `Promise.all` over per-task suggestion calls → optional document upload →
`addDoc`.  Everything sits in one `try` block, so any rejection anywhere
aborts before `addDoc`.  The external capability results are injected through
`PipelineEnv`.  `generateDemoVideoSuggestion` and the other `openai.ts`
wrappers rethrow their errors, so a capability failure is an
`Except.error`. -/

/-- A daily task of the summarization payload
(`{title, description, whyItMatters, weeklyGoalIndex}`). -/
structure SummaryTask where
  title : String
  description : String
  whyItMatters : String
  weeklyGoalIndex : ℤ
deriving DecidableEq

/-- The parsed summarization payload (`summarizeTreatmentPlan` result). -/
structure Summary where
  summary : String
  therapyType : Option String
  weeklyGoals : List RawGoal
  dailyTasks : List SummaryTask
deriving DecidableEq

/-- An enriched daily task as assembled by `handleSubmit` step 4. -/
structure DailyTask where
  id : String
  title : String
  description : String
  whyItMatters : String
  weeklyGoalIndex : ℤ
  demoVideoSuggestion : Option String
  editable : Bool
deriving DecidableEq

/-- The persisted treatment-plan record (`addDoc` payload, step 6). -/
structure TreatmentPlan where
  childId : String
  therapistId : String
  voiceRecordingUrl : String
  documentUrl : String
  transcription : String
  summary : String
  therapyType : String
  weeklyGoals : List RawGoal
  dailyTasks : List DailyTask
  createdAt : ℤ
  updatedAt : ℤ
deriving DecidableEq

/-- The injected results of the external capability calls made by one
pipeline run.  `docFile` is `some ()` when a companion document was attached;
`uploadDoc` is only consulted in that case. -/
structure PipelineEnv where
  uploadVoice : Except String String
  transcribe : Except String String
  summarize : Except String Summary
  suggest : String → Except String String
  docFile : Option Unit
  uploadDoc : Except String String

/-- Step 4 of `handleSubmit`: `Promise.all(summary.dailyTasks.map(...))` where
each task's `generateDemoVideoSuggestion` result is attached.  `Promise.all`
rejects as soon as any element rejects, so the whole step is an `Except`:
one failing suggestion yields `Except.error` for the stage. -/
def enrichTasks (env : PipelineEnv) (now : ℤ) :
    ℕ → List SummaryTask → Except String (List DailyTask)
  | _, [] => .ok []
  | i, t :: ts =>
    match env.suggest t.description, enrichTasks env now (i + 1) ts with
    | .ok sug, .ok rest =>
      .ok ({ id := "task_" ++ toString now ++ "_" ++ toString i
             title := t.title
             description := t.description
             whyItMatters := t.whyItMatters
             weeklyGoalIndex := t.weeklyGoalIndex
             demoVideoSuggestion := some sug
             editable := true } :: rest)
    | .error e, _ => .error e
    | _, .error e => .error e

/-- `handleSubmit` steps 1–6 as one fallible computation returning the plan
that step 6 persists.  The `try`/`catch` surrounding the whole body means any
stage's rejection is the function's result and `addDoc` never runs.
`therapyType` is `summary.therapyType || 'behavior'` (VoiceRecorder line
146). -/
def handleSubmit (env : PipelineEnv) (childId therapistId : String) (now : ℤ) :
    Except String TreatmentPlan :=
  match env.uploadVoice with
  | .error e => .error e
  | .ok voiceUrl =>
    match env.transcribe with
    | .error e => .error e
    | .ok transcription =>
      match env.summarize with
      | .error e => .error e
      | .ok summary =>
        match enrichTasks env now 0 summary.dailyTasks with
        | .error e => .error e
        | .ok tasks =>
          match (match env.docFile with
                 | none => Except.ok ""
                 | some _ => env.uploadDoc) with
          | .error e => .error e
          | .ok documentUrl =>
            .ok { childId := childId
                  therapistId := therapistId
                  voiceRecordingUrl := voiceUrl
                  documentUrl := documentUrl
                  transcription := transcription
                  summary := summary.summary
                  therapyType := summary.therapyType.getD "behavior"
                  weeklyGoals := summary.weeklyGoals
                  dailyTasks := tasks
                  createdAt := now
                  updatedAt := now }

/-- The persistence boundary: a successful run appends exactly one plan to the
`treatmentPlans` collection; a failed run is caught and leaves it unchanged. -/
def runPipeline (store : List TreatmentPlan) (env : PipelineEnv)
    (childId therapistId : String) (now : ℤ) : List TreatmentPlan :=
  match handleSubmit env childId therapistId now with
  | .ok plan => store ++ [plan]
  | .error _ => store

/-! ## Child linking

`ParentProfile.handleAddChild` (`src/unnamed/part_001` lines 46–94) and
`PatientList.handleAssignToMe` (lines 72–89).  Firestore's `children`
collection is a list; an unset `parentId`/`therapistId` is the empty string
(therapist-created children are written with `parentId: ''`), matching the
JS truthiness check `childData.parentId && childData.parentId !== uid`. -/

/-- A `children` collection record. -/
structure ChildRec where
  id : ℕ
  nationalId : String
  name : String
  parentId : String
  therapistId : String
  createdAt : ℤ
deriving DecidableEq

/-- `handleAddChild`: look the child up by national id; if found and its
`parentId` is truthy and differs from the acting parent's uid, fail without
touching the store; otherwise merge `{parentId, name}` into the found record,
or create a fresh record when none exists. -/
def handleAddChild (store : List ChildRec) (uid childName nid : String)
    (newId : ℕ) (now : ℤ) : Except String (List ChildRec) :=
  match (store.filter (fun c => decide (c.nationalId = nid))).head? with
  | some childDoc =>
    if childDoc.parentId ≠ "" ∧ childDoc.parentId ≠ uid then
      .error "This child is already linked to another parent account"
    else
      .ok (store.map (fun c =>
        if c.id = childDoc.id then { c with parentId := uid, name := childName }
        else c))
  | none =>
    .ok (store ++ [{ id := newId
                     nationalId := nid
                     name := childName
                     parentId := uid
                     therapistId := ""
                     createdAt := now }])

/-- `handleAssignToMe`: `updateDoc(childRef, { therapistId: currentUser.uid })`
with no conflict check of any kind — it sets the therapist unconditionally. -/
def handleAssignToMe (store : List ChildRec) (uid : String) (childId : ℕ) :
    List ChildRec :=
  store.map (fun c =>
    if c.id = childId then { c with therapistId := uid } else c)

/-! ## Helper lemmas -/

/-- `jsRound` of the exact value 100 is 100. -/
theorem jsRound_hundred : jsRound (100 : ℚ) = 100 := by
  unfold jsRound
  rw [Int.floor_eq_iff]
  norm_num

/-- A weekly bucket with no sessions reports completion rate 0. -/
theorem mkWeek_rate_of_total_zero (today : ℤ) (sessions : List SessionRec)
    (r : ℚ) (k : ℕ) (h : (mkWeek today sessions r k).totalTasks = 0) :
    (mkWeek today sessions r k).completionRate = 0 := by
  have hrfl : (mkWeek today sessions r k).completionRate
      = if (mkWeek today sessions r k).totalTasks > 0
        then jsRound ((((mkWeek today sessions r k).tasksCompleted : ℚ)
            / ((mkWeek today sessions r k).totalTasks : ℚ)) * 100)
        else 0 := rfl
  rw [hrfl, h]
  simp

/-! ## Claim theorems -/

/-- C9: normalizing a legacy string-array `weeklyGoals` yields the
tagged-object sequence in the same order with `category` null everywhere, and
normalization is idempotent. -/
theorem normalizeWeeklyGoals_legacy_and_idempotent :
    (∀ ss : List String,
      normalizeWeeklyGoals (ss.map RawGoal.str)
        = ss.map (fun s => RawGoal.obj s none)) ∧
    (∀ gs : List RawGoal,
      normalizeWeeklyGoals (normalizeWeeklyGoals gs)
        = normalizeWeeklyGoals gs) := by
  constructor
  · intro ss
    induction ss with
    | nil => rfl
    | cons a l ih => simp [normalizeWeeklyGoals, normalizeGoal]
  · intro gs
    induction gs with
    | nil => rfl
    | cons g l ih =>
      simp [normalizeWeeklyGoals] at ih ⊢
      exact ⟨by cases g <;> rfl, ih⟩

/-- C7: the computed completion rate is `completed/total` as a rounded
percentage, is 0 for an empty input (no division by zero), is 100 when all
records are completed, and every empty weekly bucket likewise reports 0. -/
theorem completionRate_rounded_zero_safe :
    (∀ sessions : List SessionRec, 0 < sessions.length →
      dashboardCompletionRate sessions
        = jsRound ((((sessions.filter fun s => s.completed).length : ℚ)
            / (sessions.length : ℚ)) * 100)) ∧
    (∀ sessions : List SessionRec, sessions.length = 0 →
      dashboardCompletionRate sessions = 0) ∧
    (∀ sessions : List SessionRec, sessions ≠ [] →
      (∀ s ∈ sessions, s.completed) → dashboardCompletionRate sessions = 100) ∧
    (∀ (today : ℤ) (sessions : List SessionRec) (rs : RandState),
      ∀ w ∈ generateWeeklySummary today sessions rs,
        w.totalTasks = 0 → w.completionRate = 0) := by
  refine ⟨?_, ?_, ?_, ?_⟩
  · intro sessions h
    simp [dashboardCompletionRate, h]
  · intro sessions h
    simp [dashboardCompletionRate, h]
  · intro sessions hne hall
    have hfilter : sessions.filter (fun s => s.completed) = sessions :=
      List.filter_eq_self.mpr (by intro a ha; simpa using hall a ha)
    have hlen : 0 < sessions.length := List.length_pos.mpr hne
    have hcast : ((sessions.length : ℚ)) ≠ 0 := Nat.cast_ne_zero.mpr hlen.ne'
    simp only [dashboardCompletionRate, hfilter]
    rw [if_pos hlen, div_self hcast, one_mul]
    exact jsRound_hundred
  · intro today sessions rs w hw h0
    have hrep : generateWeeklySummary today sessions rs
        = [mkWeek today sessions (rs.stream (rs.pos + 3)) 3,
           mkWeek today sessions (rs.stream (rs.pos + 2)) 2,
           mkWeek today sessions (rs.stream (rs.pos + 1)) 1,
           mkWeek today sessions (rs.stream (rs.pos + 0)) 0] := rfl
    rw [hrep] at hw
    simp only [List.mem_cons, List.not_mem_nil, or_false] at hw
    rcases hw with h | h | h | h <;>
      (subst h; exact mkWeek_rate_of_total_zero _ _ _ _ h0)

/-- A concrete fully-completed session record, used by witnesses. -/
def sessToday : SessionRec :=
  { id := "s", childId := "c", taskId := "t", parentId := "p",
    completed := true, feedback := .easy, childMood := .happy, notes := "",
    completedAt := 0, createdAt := 0 }

/-- A concrete random stream: every draw is 1/2. -/
def rsHalf : RandState := ⟨fun _ => 1/2, 0⟩

/-- Witness for C7 at concrete inputs: one completed session yields rate 100
and the empty input yields rate 0. -/
theorem completionRate_rounded_zero_safe_witness :
    dashboardCompletionRate [sessToday] = 100 ∧
    dashboardCompletionRate [] = 0 :=
  ⟨completionRate_rounded_zero_safe.2.2.1 [sessToday] (by simp)
      (by intro s hs; simp at hs; subst hs; rfl),
   completionRate_rounded_zero_safe.2.1 [] rfl⟩

/-! ## Pipeline lemmas and claim theorems -/

/-- If some task's suggestion call fails, the whole `Promise.all` stage
rejects. -/
theorem enrichTasks_error_of_mem (env : PipelineEnv) (now : ℤ) :
    ∀ (ts : List SummaryTask) (i : ℕ) (t : SummaryTask), t ∈ ts →
      (∃ e, env.suggest t.description = .error e) →
      ∃ e', enrichTasks env now i ts = .error e' := by
  intro ts
  induction ts with
  | nil => intro i t ht _; simp at ht
  | cons a l ih =>
    intro i t ht ⟨e, he⟩
    rcases List.mem_cons.mp ht with h | h
    · subst h
      cases hrest : enrichTasks env now (i + 1) l <;>
        exact ⟨e, by simp [enrichTasks, he, hrest]⟩
    · obtain ⟨e', he'⟩ := ih (i + 1) t h ⟨e, he⟩
      cases hsug : env.suggest a.description with
      | error e2 => exact ⟨e2, by simp [enrichTasks, hsug]⟩
      | ok s => exact ⟨e', by simp [enrichTasks, hsug, he']⟩

/-- When the `Promise.all` stage succeeds, the enriched tasks carry exactly
the summarizer's `weeklyGoalIndex` values, in order. -/
theorem enrichTasks_map_goalIdx (env : PipelineEnv) (now : ℤ) :
    ∀ (ts : List SummaryTask) (i : ℕ) (l : List DailyTask),
      enrichTasks env now i ts = .ok l →
      l.map (fun t => t.weeklyGoalIndex) = ts.map (fun t => t.weeklyGoalIndex) := by
  intro ts
  induction ts with
  | nil => intro i l h; simp [enrichTasks] at h; subst h; rfl
  | cons a ts ih =>
    intro i l h
    cases hsug : env.suggest a.description with
    | error e => simp [enrichTasks, hsug] at h
    | ok s =>
      cases hrest : enrichTasks env now (i + 1) ts with
      | error e => simp [enrichTasks, hsug, hrest] at h
      | ok rest =>
        simp [enrichTasks, hsug, hrest] at h
        subst h
        simp [ih (i + 1) rest hrest]

/-- C5: if a required stage (voice upload, transcription, or summarization)
fails, the pipeline aborts and the persisted plan collection is unchanged. -/
theorem requiredStageFailure_leaves_store (store : List TreatmentPlan)
    (env : PipelineEnv) (childId therapistId : String) (now : ℤ)
    (h : (∃ e, env.uploadVoice = .error e) ∨ (∃ e, env.transcribe = .error e)
       ∨ (∃ e, env.summarize = .error e)) :
    runPipeline store env childId therapistId now = store := by
  rcases h with ⟨e, he⟩ | ⟨e, he⟩ | ⟨e, he⟩
  · simp [runPipeline, handleSubmit, he]
  · unfold runPipeline handleSubmit
    cases env.uploadVoice <;> simp [he]
  · unfold runPipeline handleSubmit
    cases env.uploadVoice <;> cases env.transcribe <;> simp [he]

/-- A summarization payload with two goals and two daily tasks, used to
exercise the pipeline at concrete inputs. -/
def summaryTwoTasks : Summary :=
  { summary := "plan summary"
    therapyType := some "motor"
    weeklyGoals := [.obj "goal zero" (some "motor"), .obj "goal one" none]
    dailyTasks := [⟨"task zero", "desc zero", "why zero", 0⟩,
                   ⟨"task one", "desc one", "why one", 1⟩] }

/-- A pipeline run whose transcription stage fails. -/
def envTranscribeFail : PipelineEnv :=
  { uploadVoice := .ok "voice-url"
    transcribe := .error "network failure"
    summarize := .ok summaryTwoTasks
    suggest := fun _ => .ok "suggestion"
    docFile := none
    uploadDoc := .ok "" }

/-- Witness for C5: a failing transcription leaves the store unchanged. -/
theorem requiredStageFailure_leaves_store_witness :
    runPipeline [] envTranscribeFail "child" "ther" 0 = [] :=
  requiredStageFailure_leaves_store [] envTranscribeFail "child" "ther" 0
    (Or.inr (Or.inl ⟨"network failure", rfl⟩))

/-- A pipeline run where the first task's demo-suggestion call fails and the
second succeeds; every other stage succeeds. -/
def envSuggestFail : PipelineEnv :=
  { uploadVoice := .ok "voice-url"
    transcribe := .ok "transcript"
    summarize := .ok summaryTwoTasks
    suggest := fun d => if d = "desc zero" then .error "suggestion failed"
                        else .ok "suggestion"
    docFile := none
    uploadDoc := .ok "" }

/-- C2 counterexample: with one of two tasks' suggestion calls failing, the
claim says the plan is still persisted (failing task kept without a
suggestion, the other enriched); in fact nothing is persisted at all. -/
theorem oneSuggestionFailure_nothing_persisted :
    runPipeline [] envSuggestFail "child" "ther" 0 = [] := by rfl

/-- C2 amended: `Promise.all` rejects when any task's suggestion request
fails, so a single task's enrichment failure aborts the whole pipeline and no
plan is persisted; no task is kept. -/
theorem oneSuggestionFailure_aborts_pipeline (store : List TreatmentPlan)
    (env : PipelineEnv) (childId therapistId : String) (now : ℤ)
    (u tr : String) (sm : Summary)
    (h1 : env.uploadVoice = .ok u) (h2 : env.transcribe = .ok tr)
    (h3 : env.summarize = .ok sm)
    (h4 : ∃ t ∈ sm.dailyTasks, ∃ e, env.suggest t.description = .error e) :
    runPipeline store env childId therapistId now = store := by
  obtain ⟨t, ht, e, he⟩ := h4
  obtain ⟨e', he'⟩ :=
    enrichTasks_error_of_mem env now sm.dailyTasks 0 t ht ⟨e, he⟩
  simp [runPipeline, handleSubmit, h1, h2, h3, he']

/-- Witness for the amended C2 at the concrete failing environment. -/
theorem oneSuggestionFailure_aborts_pipeline_witness :
    runPipeline [] envSuggestFail "childW" "therW" 5 = [] :=
  oneSuggestionFailure_aborts_pipeline [] envSuggestFail "childW" "therW" 5
    "voice-url" "transcript" summaryTwoTasks rfl rfl rfl
    ⟨⟨"task zero", "desc zero", "why zero", 0⟩, by decide,
     "suggestion failed", rfl⟩

/-- A pipeline run with a companion document attached whose upload fails;
every other stage succeeds. -/
def envDocFail : PipelineEnv :=
  { uploadVoice := .ok "voice-url"
    transcribe := .ok "transcript"
    summarize := .ok summaryTwoTasks
    suggest := fun _ => .ok "suggestion"
    docFile := some ()
    uploadDoc := .error "doc upload failed" }

/-- C4 counterexample: the claim says a failing optional document upload
still persists the plan with an empty document URL; in fact the failure
aborts the pipeline and nothing is persisted. -/
theorem docUploadFailure_nothing_persisted :
    runPipeline [] envDocFail "child" "ther" 0 = [] := by rfl

/-- C4 amended: a failing companion-document upload aborts the whole
pipeline (no plan is persisted); the persisted document URL is empty exactly
when no document was attached, in which case the plan is persisted. -/
theorem docUploadFailure_aborts_pipeline :
    (∀ (store : List TreatmentPlan) (env : PipelineEnv)
       (childId therapistId : String) (now : ℤ) (u tr : String) (sm : Summary)
       (e : String),
      env.uploadVoice = .ok u → env.transcribe = .ok tr →
      env.summarize = .ok sm → env.docFile = some () →
      env.uploadDoc = .error e →
      runPipeline store env childId therapistId now = store) ∧
    (∀ (store : List TreatmentPlan) (env : PipelineEnv)
       (childId therapistId : String) (now : ℤ) (u tr : String) (sm : Summary)
       (l : List DailyTask),
      env.uploadVoice = .ok u → env.transcribe = .ok tr →
      env.summarize = .ok sm → enrichTasks env now 0 sm.dailyTasks = .ok l →
      env.docFile = none →
      ∃ plan, handleSubmit env childId therapistId now = .ok plan ∧
        plan.documentUrl = "" ∧
        runPipeline store env childId therapistId now = store ++ [plan]) := by
  constructor
  · intro store env childId therapistId now u tr sm e h1 h2 h3 h4 h5
    unfold runPipeline handleSubmit
    simp only [h1, h2, h3, h4, h5]
    cases hen : enrichTasks env now 0 sm.dailyTasks <;> simp [hen]
  · intro store env childId therapistId now u tr sm l h1 h2 h3 h4 h5
    unfold runPipeline handleSubmit
    simp only [h1, h2, h3, h4, h5]
    exact ⟨_, rfl, rfl, rfl⟩

/-- A pipeline run with no document attached and every stage succeeding. -/
def envAllOk : PipelineEnv :=
  { uploadVoice := .ok "voice-url"
    transcribe := .ok "transcript"
    summarize := .ok summaryTwoTasks
    suggest := fun _ => .ok "suggestion"
    docFile := none
    uploadDoc := .error "never consulted" }

/-- Witness for the amended C4: the doc-failure run keeps the store; the
no-document run persists a plan with an empty document URL. -/
theorem docUploadFailure_aborts_pipeline_witness :
    runPipeline [] envDocFail "childW" "therW" 1 = [] ∧
    (∃ plan, handleSubmit envAllOk "childW" "therW" 1 = .ok plan ∧
      plan.documentUrl = "" ∧
      runPipeline [] envAllOk "childW" "therW" 1 = [] ++ [plan]) :=
  ⟨docUploadFailure_aborts_pipeline.1 [] envDocFail "childW" "therW" 1
      "voice-url" "transcript" summaryTwoTasks "doc upload failed"
      rfl rfl rfl rfl rfl,
   docUploadFailure_aborts_pipeline.2 [] envAllOk "childW" "therW" 1
      "voice-url" "transcript" summaryTwoTasks _ rfl rfl rfl rfl rfl⟩

/-- A summarization payload with two goals and one daily task whose
`weeklyGoalIndex` is 7, out of range of the two goals. -/
def summaryBadIndex : Summary :=
  { summary := "plan summary"
    therapyType := none
    weeklyGoals := [.obj "goal zero" none, .obj "goal one" none]
    dailyTasks := [⟨"task", "desc", "why", 7⟩] }

/-- A fully succeeding pipeline run over `summaryBadIndex`. -/
def envBadIndex : PipelineEnv :=
  { uploadVoice := .ok "voice-url"
    transcribe := .ok "transcript"
    summarize := .ok summaryBadIndex
    suggest := fun _ => .ok "suggestion"
    docFile := none
    uploadDoc := .ok "" }

/-- C1 counterexample: a summarizer index 7 against 2 goals is persisted
verbatim — not clamped to the last valid index 1, and not rejected: the
persisted plan's task still carries index 7, outside `[0, 2)`. -/
theorem outOfRangeIndex_persisted_verbatim :
    ((runPipeline [] envBadIndex "child" "ther" 0).map
        (fun p => p.dailyTasks.map (fun t => t.weeklyGoalIndex))) = [[7]] ∧
    ((runPipeline [] envBadIndex "child" "ther" 0).map
        (fun p => p.weeklyGoals.length)) = [2] ∧
    ¬ ((7 : ℤ) < 2) := by
  refine ⟨by rfl, by rfl, by norm_num⟩

/-- C1 amended: the assembler performs no validation of `weeklyGoalIndex`:
every persisted task carries the summarizer's index verbatim, whether or not
it is in range of `weeklyGoals`. -/
theorem assembler_copies_goalIndex_verbatim (env : PipelineEnv)
    (childId therapistId : String) (now : ℤ) (sm : Summary)
    (plan : TreatmentPlan)
    (h1 : env.summarize = .ok sm)
    (h2 : handleSubmit env childId therapistId now = .ok plan) :
    plan.dailyTasks.map (fun t => t.weeklyGoalIndex)
      = sm.dailyTasks.map (fun t => t.weeklyGoalIndex) := by
  unfold handleSubmit at h2
  cases hu : env.uploadVoice with
  | error e => simp [hu] at h2
  | ok u =>
    simp only [hu] at h2
    cases htr : env.transcribe with
    | error e => simp [htr] at h2
    | ok tr =>
      simp only [htr, h1] at h2
      cases hen : enrichTasks env now 0 sm.dailyTasks with
      | error e => simp [hen] at h2
      | ok l =>
        simp only [hen] at h2
        cases hdoc : (match env.docFile with
                      | none => Except.ok ""
                      | some _ => env.uploadDoc) with
        | error e => simp [hdoc] at h2
        | ok documentUrl =>
          simp only [hdoc, Except.ok.injEq] at h2
          subst h2
          exact enrichTasks_map_goalIdx env now sm.dailyTasks 0 l hen

/-- Witness for the amended C1 at the out-of-range environment. -/
theorem assembler_copies_goalIndex_verbatim_witness :
    ∃ plan, handleSubmit envBadIndex "childW" "therW" 1 = .ok plan ∧
      plan.dailyTasks.map (fun t => t.weeklyGoalIndex)
        = summaryBadIndex.dailyTasks.map (fun t => t.weeklyGoalIndex) := by
  refine ⟨_, rfl, ?_⟩
  exact assembler_copies_goalIndex_verbatim envBadIndex "childW" "therW" 1
    summaryBadIndex _ rfl rfl

/-! ## Child-linking claim theorems -/

/-- A child record already assigned to therapist A, with no parent. -/
def childAssigned : ChildRec :=
  { id := 0, nationalId := "N1", name := "kid",
    parentId := "", therapistId := "therapist_A", createdAt := 0 }

/-- C8 counterexample: a therapist attaching a child already assigned to a
*different* therapist does not fail — `handleAssignToMe` silently overwrites
the existing `therapistId`. -/
theorem therapistAssign_overwrites :
    handleAssignToMe [childAssigned] "therapist_B" 0
      = [{ childAssigned with therapistId := "therapist_B" }] ∧
    childAssigned.therapistId = "therapist_A" ∧
    "therapist_A" ≠ "therapist_B" := by
  refine ⟨by rfl, by rfl, by decide⟩

/-- C8 amended: the parent-side link (`handleAddChild`) fails without
modifying the store when the matched child has a non-empty `parentId`
different from the acting parent; but the therapist-side assignment
(`handleAssignToMe`) performs no such check — it overwrites any existing
`therapistId` unconditionally. -/
theorem linkConflict_parent_only :
    (∀ (store : List ChildRec) (uid childName nid : String) (newId : ℕ)
       (now : ℤ) (c : ChildRec),
      (store.filter (fun c' => decide (c'.nationalId = nid))).head? = some c →
      c.parentId ≠ "" → c.parentId ≠ uid →
      handleAddChild store uid childName nid newId now
        = .error "This child is already linked to another parent account") ∧
    (∀ (store : List ChildRec) (uid : String) (cid : ℕ) (c : ChildRec),
      c ∈ store → c.id = cid →
      { c with therapistId := uid } ∈ handleAssignToMe store uid cid) := by
  constructor
  · intro store uid childName nid newId now c h1 h2 h3
    unfold handleAddChild
    simp only [h1]
    rw [if_pos ⟨h2, h3⟩]
  · intro store uid cid c hc hid
    unfold handleAssignToMe
    exact List.mem_map.mpr ⟨c, hc, by simp [hid]⟩

/-- A child record already linked to parent A. -/
def childWithParent : ChildRec :=
  { id := 1, nationalId := "N2", name := "kid2",
    parentId := "parent_A", therapistId := "", createdAt := 0 }

/-- Witness for the amended C8: the parent-side conflict errors at a concrete
store, and the therapist-side overwrite lands in the result store. -/
theorem linkConflict_parent_only_witness :
    handleAddChild [childWithParent] "parent_B" "newname" "N2" 9 0
      = .error "This child is already linked to another parent account" ∧
    { childAssigned with therapistId := "therapist_B" }
      ∈ handleAssignToMe [childAssigned] "therapist_B" 0 :=
  ⟨linkConflict_parent_only.1 [childWithParent] "parent_B" "newname" "N2" 9 0
      childWithParent rfl (by decide) (by decide),
   linkConflict_parent_only.2 [childAssigned] "therapist_B" 0 childAssigned
      (List.mem_singleton.mpr rfl) rfl⟩

/-! ## Weekly-trend claim theorems -/

/-- The four buckets of `generateWeeklySummary`, oldest first: `weekIndex` 3
down to 0, each consuming one `Math.random()` draw in loop order. -/
theorem generateWeeklySummary_eq (today : ℤ) (sessions : List SessionRec)
    (rs : RandState) :
    generateWeeklySummary today sessions rs
      = [mkWeek today sessions (rs.stream (rs.pos + 3)) 3,
         mkWeek today sessions (rs.stream (rs.pos + 2)) 2,
         mkWeek today sessions (rs.stream (rs.pos + 1)) 1,
         mkWeek today sessions (rs.stream (rs.pos + 0)) 0] := rfl

/-- C6 counterexample: a session completed exactly "today" falls in no
bucket, and the most recent bucket ends at `today - 1`, not today — the four
windows are `[today-28, today-22] … [today-7, today-1]`, so they are not
"windows ending today" as claimed. -/
theorem sessionToday_outside_all_buckets :
    ((generateWeeklySummary 0 [sessToday] rsHalf).map (fun w => w.totalTasks))
      = [0, 0, 0, 0] ∧
    ((generateWeeklySummary 0 [sessToday] rsHalf).map (fun w => w.weekEnd))
      = [-22, -15, -8, -1] ∧
    sessToday.completedAt = 0 := by
  refine ⟨by rfl, by rfl, rfl⟩

/-- C6 amended: the weekly trend is exactly 4 buckets, each a 7-day window
with inclusive bounds, oldest first; but the windows are the four most recent
7-day windows ending *yesterday* (`today - 1`): bucket `j` (oldest first)
spans `[today - 28 + 7j, today - 22 + 7j]`, and a session is counted in a
bucket iff its `completedAt` lies within those inclusive bounds. -/
theorem weeklyTrend_windows (today : ℤ) (sessions : List SessionRec)
    (rs : RandState) :
    ((generateWeeklySummary today sessions rs).map
        (fun w => (w.weekStart, w.weekEnd))
      = [(today - 28, today - 22), (today - 21, today - 15),
         (today - 14, today - 8), (today - 7, today - 1)]) ∧
    (∀ w ∈ generateWeeklySummary today sessions rs,
      w.totalTasks = (sessions.filter
        (fun s => decide (w.weekStart ≤ s.completedAt
            ∧ s.completedAt ≤ w.weekEnd))).length) ∧
    (generateWeeklySummary today sessions rs).length = 4 := by
  refine ⟨?_, ?_, rfl⟩
  · simp only [generateWeeklySummary_eq, List.map_cons, List.map_nil, mkWeek]
    norm_num
    omega
  · intro w hw
    rw [generateWeeklySummary_eq] at hw
    simp only [List.mem_cons, List.not_mem_nil, or_false] at hw
    rcases hw with h | h | h | h <;> subst h <;> rfl

/-- Witness for the amended C6 at a concrete input. -/
theorem weeklyTrend_windows_witness :
    ((generateWeeklySummary 0 [sessToday] rsHalf).map
        (fun w => (w.weekStart, w.weekEnd))
      = [(0 - 28, 0 - 22), (0 - 21, 0 - 15), (0 - 14, 0 - 8), (0 - 7, 0 - 1)]) ∧
    (∀ w ∈ generateWeeklySummary 0 [sessToday] rsHalf,
      w.totalTasks = ([sessToday].filter
        (fun s => decide (w.weekStart ≤ s.completedAt
            ∧ s.completedAt ≤ w.weekEnd))).length) ∧
    (generateWeeklySummary 0 [sessToday] rsHalf).length = 4 :=
  weeklyTrend_windows 0 [sessToday] rsHalf

/-- C10: the `engagementRate` of every bucket is 70–100 and is a function of
the random draws alone — two runs over different session data with the same
draws produce identical engagement rates. -/
theorem engagementRate_data_independent (today : ℤ)
    (s1 s2 : List SessionRec) (rs : RandState) :
    ((generateWeeklySummary today s1 rs).map (fun w => w.engagementRate)
      = (generateWeeklySummary today s2 rs).map (fun w => w.engagementRate)) ∧
    ((∀ n, 0 ≤ rs.stream n ∧ rs.stream n < 1) →
      ∀ w ∈ generateWeeklySummary today s1 rs,
        70 ≤ w.engagementRate ∧ w.engagementRate ≤ 100) := by
  constructor
  · rfl
  · intro hb w hw
    have key : ∀ n, 70 ≤ jsRound (rs.stream n * 30 + 70)
        ∧ jsRound (rs.stream n * 30 + 70) ≤ 100 := by
      intro n
      obtain ⟨h0, h1⟩ := hb n
      constructor
      · rw [jsRound, Int.le_floor]
        push_cast
        linarith
      · rw [jsRound]
        have hlt : (⌊rs.stream n * 30 + 70 + 1/2⌋ : ℤ) < 101 := by
          rw [Int.floor_lt]
          push_cast
          linarith
        omega
    rw [generateWeeklySummary_eq] at hw
    simp only [List.mem_cons, List.not_mem_nil, or_false] at hw
    rcases hw with h | h | h | h <;> subst h <;> exact key _

/-- Witness for C10 at concrete inputs: empty vs. one-session data, constant
draw 1/2. -/
theorem engagementRate_data_independent_witness :
    ((generateWeeklySummary 0 [] rsHalf).map (fun w => w.engagementRate)
      = (generateWeeklySummary 0 [sessToday] rsHalf).map
          (fun w => w.engagementRate)) ∧
    (∀ w ∈ generateWeeklySummary 0 [] rsHalf,
      70 ≤ w.engagementRate ∧ w.engagementRate ≤ 100) :=
  ⟨(engagementRate_data_independent 0 [] [sessToday] rsHalf).1,
   (engagementRate_data_independent 0 [] [sessToday] rsHalf).2
     (fun n => ⟨by norm_num [rsHalf], by norm_num [rsHalf]⟩)⟩

/-! ## Synthetic-data generator claim (C3) -/

/-- The mood draws never change the underlying random stream, only the
position. -/
theorem pickMood_stream (fb : Feedback) (rs : RandState) :
    ((pickMood fb rs).2).stream = rs.stream := by
  cases fb with
  | easy => rfl
  | struggled => rfl
  | needsPractice =>
    simp only [pickMood, RandState.next]
    split <;> rfl

/-- One generator iteration never changes the underlying random stream. -/
theorem genDay_stream (childId : String) (today : ℤ) (days i : ℕ)
    (rs : RandState) :
    ((genDay childId today days i rs).2).stream = rs.stream :=
  pickMood_stream (pickFeedback ((i : ℚ) / (days : ℚ)) (rs.stream rs.pos))
    ⟨rs.stream, rs.pos + 1⟩

/-- The record of iteration `i` is dated `today - i`. -/
theorem genDay_completedAt (childId : String) (today : ℤ) (days i : ℕ)
    (rs : RandState) :
    (genDay childId today days i rs).1.completedAt = today - (i : ℤ) := rfl

/-- The `completed` flag of iteration `i` is one stream draw compared against
`completionChance i days` — the Bernoulli threshold of that iteration. -/
theorem genDay_completed (childId : String) (today : ℤ) (days i : ℕ)
    (rs : RandState) :
    ∃ n, (genDay childId today days i rs).1.completed
      = decide (rs.stream n < completionChance i days) := by
  refine ⟨(pickMood (pickFeedback ((i : ℚ) / (days : ℚ)) (rs.stream rs.pos))
      ⟨rs.stream, rs.pos + 1⟩).2.pos, ?_⟩
  have hrfl : (genDay childId today days i rs).1.completed
      = decide ((pickMood (pickFeedback ((i : ℚ) / (days : ℚ))
          (rs.stream rs.pos)) ⟨rs.stream, rs.pos + 1⟩).2.stream
          ((pickMood (pickFeedback ((i : ℚ) / (days : ℚ))
            (rs.stream rs.pos)) ⟨rs.stream, rs.pos + 1⟩).2.pos)
          < completionChance i days) := rfl
  rw [hrfl, pickMood_stream]

/-- The generator loop produces one record per index. -/
theorem genCount_length (childId : String) (today : ℤ) (days : ℕ) :
    ∀ (cnt i : ℕ) (rs : RandState),
      (genCount childId today days cnt i rs).1.length = cnt := by
  intro cnt
  induction cnt with
  | zero => intro i rs; rfl
  | succ m ih => intro i rs; simp [genCount, ih]

/-- Element `k` of the loop output (pushed newest-first) is dated
`today - (i + k)` and its completion flag compares a stream draw against
`completionChance (i + k) days`. -/
theorem genCount_get (childId : String) (today : ℤ) (days : ℕ) :
    ∀ (cnt i : ℕ) (rs : RandState) (k : ℕ), k < cnt →
      ∃ n s, (genCount childId today days cnt i rs).1.get? k = some s ∧
        s.completedAt = today - ((i + k : ℕ) : ℤ) ∧
        s.completed = decide (rs.stream n < completionChance (i + k) days) := by
  intro cnt
  induction cnt with
  | zero => intro i rs k hk; exact absurd hk (Nat.not_lt_zero k)
  | succ m ih =>
    intro i rs k hk
    cases k with
    | zero =>
      obtain ⟨n, hn⟩ := genDay_completed childId today days i rs
      exact ⟨n, (genDay childId today days i rs).1, rfl, rfl, hn⟩
    | succ k' =>
      have hk' : k' < m := by omega
      obtain ⟨n, s, h1, h2, h3⟩ :=
        ih (i + 1) ((genDay childId today days i rs).2) k' hk'
      rw [genDay_stream] at h3
      have harith : i + 1 + k' = i + (k' + 1) := by omega
      rw [harith] at h2 h3
      exact ⟨n, s, h1, h2, h3⟩

/-- C3 (what the code actually does): the generator at `N = 14` returns
exactly 14 records, oldest first — position `p` is dated `today - (13 - p)`,
so position 0 is strictly earlier than position 13 — and position `p`'s
completion flag is a Bernoulli draw with threshold
`completionChance (13 - p) 14`.  That threshold *decreases* toward today, so
the expected completion rate over positions 10–13 (19/35 ≈ 54%) is strictly
*lower* than over positions 0–3 (29/35 ≈ 83%), contradicting the claimed
improvement trend (and the source's own comments). -/
theorem generator_trend_inverted (childId : String) (today : ℤ)
    (rs : RandState) :
    (generateSampleProgressData childId today 14 rs).length = 14 ∧
    (∀ p : Fin 14, ∃ n s,
      (generateSampleProgressData childId today 14 rs).get? p.val = some s ∧
      s.completedAt = today - ((13 - p.val : ℕ) : ℤ) ∧
      s.completed
        = decide (rs.stream n < completionChance (13 - p.val) 14)) ∧
    ((generateSampleProgressData childId today 14 rs).map
        (fun s => s.completedAt)).get? 0 = some (today - 13) ∧
    ((generateSampleProgressData childId today 14 rs).map
        (fun s => s.completedAt)).get? 13 = some today ∧
    today - 13 < today ∧
    ((([10, 11, 12, 13] : List ℕ).map
        (fun p => completionChance (13 - p) 14)).sum / 4
      < (([0, 1, 2, 3] : List ℕ).map
          (fun p => completionChance (13 - p) 14)).sum / 4) := by
  have hlen0 : (genCount childId today 14 14 0 rs).1.length = 14 :=
    genCount_length childId today 14 14 0 rs
  have hget : ∀ p : Fin 14, ∃ n s,
      (generateSampleProgressData childId today 14 rs).get? p.val = some s ∧
      s.completedAt = today - ((13 - p.val : ℕ) : ℤ) ∧
      s.completed = decide (rs.stream n < completionChance (13 - p.val) 14) := by
    intro p
    have hp : p.val < 14 := p.isLt
    have hrev : (generateSampleProgressData childId today 14 rs).get? p.val
        = (genCount childId today 14 14 0 rs).1.get?
            ((genCount childId today 14 14 0 rs).1.length - 1 - p.val) := by
      unfold generateSampleProgressData
      exact List.get?_reverse (by rw [hlen0]; exact hp)
    rw [hlen0] at hrev
    have hk : 14 - 1 - p.val = 13 - p.val := by omega
    rw [hk] at hrev
    obtain ⟨n, s, h1, h2, h3⟩ :=
      genCount_get childId today 14 14 0 rs (13 - p.val) (by omega)
    rw [Nat.zero_add] at h2 h3
    exact ⟨n, s, by rw [hrev, h1], h2, h3⟩
  refine ⟨?_, hget, ?_, ?_, by omega, by norm_num [completionChance]⟩
  · unfold generateSampleProgressData
    rw [List.length_reverse, hlen0]
  · obtain ⟨n, s, h1, h2, h3⟩ := hget ⟨0, by omega⟩
    rw [List.get?_map, h1]
    simp [h2]
  · obtain ⟨n, s, h1, h2, h3⟩ := hget ⟨13, by omega⟩
    rw [List.get?_map, h1]
    simp [h2]

end AbilityConnect
